import Mathlib

/-!
# Verification of the pyTibber core (REST executor and websocket manager)

Shallow embedding of `src/tibber/rest.py` and `src/tibber/websocket.py`
(with the error taxonomy of `src/tibber/exceptions.py`).  Pure functions of
the source become Lean functions; the network and the event loop are
modelled as explicit oracles (one attempt outcome per request attempt, one
handshake outcome per connect call); raised Python exceptions become the
error channel of `Except` or explicit result fields.
-/

namespace Tibber

/-- Modelled from the spec: `API_ERR_CODE_UNKNOWN` lives in `const.py`,
which is not part of the sources; the spec calls it the "generic unknown
code" used when no error details can be extracted. -/
def API_ERR_CODE_UNKNOWN : String := "UNKNOWN"

/-- Modelled from the spec: `API_ERR_CODE_UNAUTH` lives in `const.py`,
which is not part of the sources; the spec calls it "a designated error
code within the fatal set [that] denotes authentication failure". -/
def API_ERR_CODE_UNAUTH : String := "UNAUTHENTICATED"

/-- Modelled from the spec: `HTTP_CODES_RETRIABLE` lives in `const.py`,
which is not part of the sources; the spec describes it as the configured
retryable status set ("server overload, timeout-class codes"). -/
def HTTP_CODES_RETRIABLE : List Nat := [429, 500, 502, 503, 504]

/-- Modelled from the spec: `HTTP_CODES_FATAL` lives in `const.py`,
which is not part of the sources; the spec describes it as the configured
fatal status set ("client-error class"). -/
def HTTP_CODES_FATAL : List Nat := [400]

/-- One entry of the GraphQL `errors` list of a response body.
`extensions = none` models a JSON error object without an `extensions`
key (`errors[0].get("extensions")` is `None`); `extensions = some c`
models an `extensions` object whose optional `code` entry is `c`. -/
structure GraphQLError where
  extensions : Option (Option String)
  message : Option String
deriving Repr, DecidableEq

/-- The parsed JSON body of a response: an optional `data` section
(opaque to the client, type parameter `δ`) and the `errors` list
(`result.get("errors", [])`; a missing or null `errors` key behaves as
the empty list). -/
structure ResponseBody (δ : Type) where
  data : Option δ
  errors : List GraphQLError
deriving Repr, DecidableEq

/-- The aiohttp response as `extract_response_data` reads it: status,
declared content type, parsed JSON body, and `contentStr` for the string
rendering of `response.content` used as a default error message. -/
structure Response (δ : Type) where
  status : Nat
  content_type : String
  body : ResponseBody δ
  contentStr : String
deriving Repr, DecidableEq

/-- Everything `execute` can raise: the classified HTTP errors of
`exceptions.py`, the two network-level errors caught for retry
(`TimeoutError`, `aiohttp.ClientError`), and the `AttributeError` that
`extract_error_details` raises on `None.get("code")`. -/
inductive RaisedError where
  | fatalHttp (status : Nat) (message : Option String) (extension_code : Option String)
  | invalidLogin (status : Nat) (message : Option String) (extension_code : Option String)
  | retryableHttp (status : Nat) (message : Option String) (extension_code : Option String)
  | timeoutErr
  | clientErr
  | attributeError
deriving Repr, DecidableEq

/-- Python `str(x)` on an optional string (an f-string renders `None`). -/
def pyStr : Option String → String
  | none => "None"
  | some s => s

/-- `extract_error_details(errors, default_message)`: on an empty (falsy)
list return the unknown code and the default message; otherwise read
`errors[0].get("extensions").get("code")` and `errors[0].get("message")` —
when the first error has no `extensions` object this raises
`AttributeError`, modelled as the `.error` branch. -/
def extract_error_details (errors : List GraphQLError) (default_message : String) :
    Except Unit (Option String × Option String) :=
  match errors with
  | [] => .ok (some API_ERR_CODE_UNKNOWN, some default_message)
  | e :: _ =>
    match e.extensions with
    | none => .error ()
    | some ext => .ok (ext, e.message)

/-- `extract_response_data(response)`: reject unexpected content types as
fatal, return the body on status 200, and otherwise classify the status
against the retriable and fatal sets, extracting error details from the
body. -/
def extract_response_data {δ : Type} (resp : Response δ) :
    Except RaisedError (ResponseBody δ) :=
  if resp.content_type ≠ "application/json" then
    .error (.fatalHttp resp.status
      (some ("Unexpected content type: " ++ resp.content_type))
      (some API_ERR_CODE_UNKNOWN))
  else if resp.status = 200 then
    .ok resp.body
  else if resp.status ∈ HTTP_CODES_RETRIABLE then
    match extract_error_details resp.body.errors resp.contentStr with
    | .error _ => .error .attributeError
    | .ok (error_code, error_message) =>
      .error (.retryableHttp resp.status error_message error_code)
  else if resp.status ∈ HTTP_CODES_FATAL then
    match extract_error_details resp.body.errors "request failed" with
    | .error _ => .error .attributeError
    | .ok (error_code, error_message) =>
      if error_code = some API_ERR_CODE_UNAUTH then
        .error (.invalidLogin resp.status error_message error_code)
      else
        .error (.fatalHttp resp.status error_message error_code)
  else
    match extract_error_details resp.body.errors "N/A" with
    | .error _ => .error .attributeError
    | .ok (error_code, error_message) =>
      .error (.fatalHttp resp.status
        (some ("Unhandled error: " ++ pyStr error_message)) error_code)

/-- What one request attempt (`websession.post` plus reading the response)
produces: a network-level timeout, a network-level transport error
(`aiohttp.ClientError`), or an HTTP response. -/
inductive AttemptOutcome (δ : Type) where
  | timeoutErr
  | clientErr
  | response (resp : Response δ)
deriving Repr, DecidableEq

/-- `timeout = timeout or self._timeout`: Python `or` replaces both `None`
and the falsy `0` by the instance default. -/
def resolve_timeout (timeout : Option Nat) (self_timeout : Nat) : Nat :=
  match timeout with
  | none => self_timeout
  | some t => if t = 0 then self_timeout else t

/-- `TibberREST.execute(document, variable_values, timeout, retry)`:
resolve the timeout, perform one request attempt; on a network-level
failure recurse with `retry - 1` and the resolved timeout while
`retry > 0`, else re-raise the network error; on a response, run
`extract_response_data` and return its `data` section.  The network is the
oracle `transport`, indexed by the attempt number; the first component of
the result is the list of timeouts used by the attempts actually
performed, in order. -/
def execute {δ : Type} (self_timeout : Nat) (transport : Nat → AttemptOutcome δ)
    (attempt : Nat) (timeout : Option Nat) (retry : Nat) :
    List Nat × Except RaisedError (Option δ) :=
  let t := resolve_timeout timeout self_timeout
  match transport attempt, retry with
  | .response resp, _ =>
    ([t], match extract_response_data resp with
          | .ok result => .ok result.data
          | .error e => .error e)
  | .timeoutErr, 0 => ([t], .error .timeoutErr)
  | .clientErr, 0 => ([t], .error .clientErr)
  | .timeoutErr, r + 1 =>
    let rest := execute self_timeout transport (attempt + 1) (some t) r
    (t :: rest.1, rest.2)
  | .clientErr, r + 1 =>
    let rest := execute self_timeout transport (attempt + 1) (some t) r
    (t :: rest.1, rest.2)

/-! ## Websocket manager (`src/tibber/websocket.py`)

`TibberWebsocket` holds two booleans (`connected`,
`reconnecting_task_in_progress`), a gql client whose transport carries a
mutable `url` and the `tibber_connected` asyncio `Event`, and the
module-level connect lock.  The event loop, the gql client and the
network are modelled as oracles: a `connect` call receives the outcome of
the bounded handshake (`success` or `timeout`), a `subscribe` iteration
receives the messages the session delivers and the transport failure, if
any, that ends the iteration.  The connect lock is modelled by running
critical sections sequentially. -/

def DEFAULT_SUBSCRIPTION_ENDPOINT : String := "wss://default_subscription_endpoint"

/-- The mutable state of a `TibberWebsocket` client: the transport url,
the two public flags, the transport's `tibber_connected` event, and
whether the underlying transport/session is open. -/
structure WSState where
  transport_url : String
  connected : Bool
  reconnecting_task_in_progress : Bool
  tibber_connected : Bool
  transport_open : Bool
deriving Repr, DecidableEq

/-- The fresh state built by `TibberWebsocket.__init__`: sentinel url,
both flags cleared, event cleared, nothing open. -/
def initialState : WSState :=
  { transport_url := DEFAULT_SUBSCRIPTION_ENDPOINT
    connected := false
    reconnecting_task_in_progress := false
    tibber_connected := false
    transport_open := false }

/-- The exceptions the websocket entry points raise synchronously:
`SubscriptionEndpointMissingError` from `connect`, and the
`RuntimeError("Connect must be called before subscribe")` usage error
from `subscribe`. -/
inductive WSError where
  | subscriptionEndpointMissing
  | runtimeError
deriving Repr, DecidableEq

/-- Outcome of the handshake `asyncio.wait_for(connect_async(...),
timeout)` as the oracle reports it: completed, or hit the timeout. -/
inductive HandshakeOutcome where
  | success
  | timeout
deriving Repr, DecidableEq

/-- What one `connect()` call produces: the new state, how many handshake
attempts this call started, and the exception it raised, if any. -/
structure ConnectResult where
  state : WSState
  handshake_attempts : Nat
  error : Option WSError
deriving Repr, DecidableEq

/-- `TibberWebsocket.connect()`: raise if the transport url is still the
sentinel endpoint; under the connect lock, return at once when already
connected or a reconnect loop is in progress; otherwise run the handshake
under the timeout — on success set `connected` (the transport's own
`connect` also sets `tibber_connected`), on timeout swallow the error —
and in either case mark the reconnecting task as in progress. -/
def connect (st : WSState) (hs : HandshakeOutcome) : ConnectResult :=
  if st.transport_url = DEFAULT_SUBSCRIPTION_ENDPOINT then
    ⟨st, 0, some .subscriptionEndpointMissing⟩
  else if st.connected || st.reconnecting_task_in_progress then
    ⟨st, 0, none⟩
  else
    match hs with
    | .timeout =>
      ⟨{ st with reconnecting_task_in_progress := true }, 1, none⟩
    | .success =>
      ⟨{ st with connected := true, tibber_connected := true, transport_open := true,
                 reconnecting_task_in_progress := true }, 1, none⟩

/-- `TibberWebsocket.disconnect()`: `close_async` closes the transport
(whose `_close_hook` clears `tibber_connected`), then the reconnecting
flag is cleared.  Nothing touches `connected`. -/
def disconnect (st : WSState) : WSState :=
  { st with transport_open := false
            tibber_connected := false
            reconnecting_task_in_progress := false }

/-- `TibberWebsocket.set_subscription_endpoint(url)`. -/
def set_subscription_endpoint (st : WSState) (url : String) : WSState :=
  { st with transport_url := url }

/-- The transport-level failures `subscribe` catches while iterating:
`websockets.exceptions.ConnectionClosed`, gql's `TransportClosed` (the
connection-closed condition), or any other gql `TransportError`. -/
inductive SubscriptionFailure where
  | connectionClosed
  | transportClosed
  | otherTransportError
deriving Repr, DecidableEq

/-- How a `subscribe` iteration ends for the consumer. -/
inductive SubscribeOutcome where
  | usageError
  | streamEnded
  | websocketReconnectedError
  | websocketTransportError
deriving Repr, DecidableEq

/-- What running a `subscribe` generator produces: the final state, the
messages yielded to the consumer, whether the generator blocked on
`tibber_connected.wait()`, and how the iteration ended. -/
structure SubscribeResult (μ : Type) where
  state : WSState
  yielded : List μ
  waited_for_reconnect : Bool
  outcome : SubscribeOutcome
deriving Repr, DecidableEq

/-- The `except (ConnectionClosed, TransportError)` handler of
`subscribe`: clear `connected` and the transport's `tibber_connected`
event, then — when a reconnect loop is in progress and the failure is
`TransportClosed` — block on `tibber_connected.wait()` (modelled as
returning once the event is re-set by the reconnected transport), set
`connected` again and raise `WebsocketReconnectedError`; otherwise raise
`WebsocketTransportError`.  Result: final state, whether the wait
happened, outcome. -/
def handle_subscription_failure (st : WSState) (err : SubscriptionFailure) :
    WSState × Bool × SubscribeOutcome :=
  let cleared := { st with connected := false, tibber_connected := false }
  if cleared.reconnecting_task_in_progress ∧ err = .transportClosed then
    ({ cleared with tibber_connected := true, connected := true },
     true, .websocketReconnectedError)
  else
    (cleared, false, .websocketTransportError)

/-- `TibberWebsocket.subscribe(document)` run as a whole: raise the usage
error before any I/O when no reconnect loop is in progress; otherwise
yield the messages the session delivers and, if a transport failure ends
the iteration, run the failure handler. -/
def subscribe {μ : Type} (st : WSState) (messages : List μ)
    (failure : Option SubscriptionFailure) : SubscribeResult μ :=
  if ¬ st.reconnecting_task_in_progress then
    ⟨st, [], false, .usageError⟩
  else
    match failure with
    | none => ⟨st, messages, false, .streamEnded⟩
    | some err =>
      let r := handle_subscription_failure st err
      ⟨r.1, messages, r.2.1, r.2.2⟩

/-! ## Concrete inputs used by witnesses and counterexamples -/

/-- Whether a raised error is the Retryable classification
(`RetryableHttpExceptionError`). -/
def RaisedError.isRetryable : RaisedError → Bool
  | .retryableHttp _ _ _ => true
  | _ => false

/-- A retriable-status JSON response whose first GraphQL error has no
`extensions` object. -/
def resp429bad : Response Nat :=
  ⟨429, "application/json", ⟨none, [⟨none, some "boom"⟩]⟩, "content"⟩

/-- A retriable-status JSON response with a well-formed error entry. -/
def respRetryOk : Response Nat :=
  ⟨503, "application/json", ⟨none, [⟨some (some "RATE_LIMITED"), some "slow down"⟩]⟩, "raw"⟩

/-- A retriable-status JSON response with an empty `errors` list. -/
def respRetryEmpty : Response Nat :=
  ⟨429, "application/json", ⟨none, []⟩, "fallback"⟩

/-- A fatal-status JSON response whose first error carries the
authentication-failure extension code. -/
def respFatalAuth : Response Nat :=
  ⟨400, "application/json", ⟨none, [⟨some (some "UNAUTHENTICATED"), some "invalid token"⟩]⟩, "raw"⟩

/-- A fatal-status JSON response with a non-authentication extension
code. -/
def respFatalOther : Response Nat :=
  ⟨400, "application/json", ⟨none, [⟨some (some "BAD_REQUEST"), some "oops"⟩]⟩, "raw"⟩

/-- A status-200 response whose content type is not JSON. -/
def respHtml : Response Nat :=
  ⟨200, "text/html", ⟨some 1, []⟩, "raw"⟩

/-- A client state after a successful `connect`: endpoint set, connected,
reconnect loop in progress, transport open and its event set. -/
def wsReadyState : WSState :=
  ⟨"wss://real", true, true, true, true⟩

/-- A client state with the endpoint set but `connect` not yet called. -/
def wsIdleState : WSState :=
  ⟨"wss://real", false, false, false, false⟩

/-! ## Helper lemmas -/

theorem resolve_timeout_idem (timeout : Option Nat) (self_timeout : Nat) :
    resolve_timeout (some (resolve_timeout timeout self_timeout)) self_timeout =
      resolve_timeout timeout self_timeout := by
  rcases timeout with _ | t
  · simp [resolve_timeout]
  · by_cases h : t = 0 <;> simp [resolve_timeout, h]

theorem execute_response {δ : Type} (self_timeout : Nat)
    (transport : Nat → AttemptOutcome δ) (attempt : Nat) (timeout : Option Nat)
    (retry : Nat) (resp : Response δ) (h0 : transport attempt = .response resp) :
    execute self_timeout transport attempt timeout retry =
      ([resolve_timeout timeout self_timeout],
       match extract_response_data resp with
       | .ok result => .ok result.data
       | .error e => .error e) := by
  cases retry <;> rw [execute.eq_def, h0]

theorem execute_network_aux {δ : Type} (self_timeout : Nat)
    (transport : Nat → AttemptOutcome δ)
    (h : ∀ i, transport i = .timeoutErr ∨ transport i = .clientErr) :
    ∀ (retry attempt : Nat) (timeout : Option Nat),
      (execute self_timeout transport attempt timeout retry).1.length = retry + 1 ∧
      (∀ x ∈ (execute self_timeout transport attempt timeout retry).1,
        x = resolve_timeout timeout self_timeout) ∧
      ((transport (attempt + retry) = .timeoutErr ∧
          (execute self_timeout transport attempt timeout retry).2 = .error .timeoutErr) ∨
       (transport (attempt + retry) = .clientErr ∧
          (execute self_timeout transport attempt timeout retry).2 = .error .clientErr)) := by
  intro retry
  induction retry with
  | zero =>
    intro attempt timeout
    rcases h attempt with ha | ha <;>
      simp [execute, ha]
  | succ r ih =>
    intro attempt timeout
    have key := ih (attempt + 1) (some (resolve_timeout timeout self_timeout))
    rw [resolve_timeout_idem] at key
    have harith : attempt + 1 + r = attempt + (r + 1) := by omega
    rw [harith] at key
    rcases h attempt with ha | ha <;>
      · simp only [execute, ha]
        refine ⟨by simpa using key.1, ?_, key.2.2⟩
        intro x hx
        rcases List.mem_cons.mp hx with hx | hx
        · exact hx
        · exact key.2.1 x hx

theorem extract_response_data_retriable {δ : Type} (resp : Response δ)
    (hct : resp.content_type = "application/json")
    (hs : resp.status ∈ HTTP_CODES_RETRIABLE) :
    extract_response_data resp =
      (match extract_error_details resp.body.errors resp.contentStr with
       | .error _ => .error .attributeError
       | .ok (error_code, error_message) =>
         .error (.retryableHttp resp.status error_message error_code)) := by
  have h200 : ¬ resp.status = 200 := by
    simp only [HTTP_CODES_RETRIABLE, List.mem_cons, List.not_mem_nil, or_false] at hs
    omega
  unfold extract_response_data
  rw [if_neg (by simp [hct]), if_neg h200, if_pos hs]

theorem extract_response_data_fatal {δ : Type} (resp : Response δ)
    (hct : resp.content_type = "application/json")
    (hs : resp.status ∈ HTTP_CODES_FATAL) :
    extract_response_data resp =
      (match extract_error_details resp.body.errors "request failed" with
       | .error _ => .error .attributeError
       | .ok (error_code, error_message) =>
         if error_code = some API_ERR_CODE_UNAUTH then
           .error (.invalidLogin resp.status error_message error_code)
         else
           .error (.fatalHttp resp.status error_message error_code)) := by
  have h400 : resp.status = 400 := by simpa [HTTP_CODES_FATAL] using hs
  have h200 : ¬ resp.status = 200 := by omega
  have hnr : ¬ resp.status ∈ HTTP_CODES_RETRIABLE := by
    rw [h400]; decide
  unfold extract_response_data
  rw [if_neg (by simp [hct]), if_neg h200, if_neg hnr, if_pos hs]

/-! ## Claims -/

/-- C1: if every request attempt fails with a network-level error
(timeout or transport error), `execute` with retry budget 3 performs
exactly 4 request attempts (initial plus 3 retries), each with the same
resolved timeout, and then raises the network error of the last
attempt itself. -/
theorem execute_exhausts_retry_budget_on_network_failure {δ : Type}
    (self_timeout : Nat) (transport : Nat → AttemptOutcome δ) (timeout : Option Nat)
    (h : ∀ i, transport i = .timeoutErr ∨ transport i = .clientErr) :
    (execute self_timeout transport 0 timeout 3).1.length = 4 ∧
    (∀ x ∈ (execute self_timeout transport 0 timeout 3).1,
      x = resolve_timeout timeout self_timeout) ∧
    ((transport 3 = .timeoutErr ∧
        (execute self_timeout transport 0 timeout 3).2 = .error .timeoutErr) ∨
     (transport 3 = .clientErr ∧
        (execute self_timeout transport 0 timeout 3).2 = .error .clientErr)) := by
  simpa using execute_network_aux self_timeout transport h 3 0 timeout

/-- Witness for C1 at a transport that always times out. -/
theorem execute_exhausts_retry_budget_on_network_failure_witness :
    (execute 10 (fun _ => (AttemptOutcome.timeoutErr : AttemptOutcome Nat)) 0 none 3).1.length = 4 ∧
    (∀ x ∈ (execute 10 (fun _ => (AttemptOutcome.timeoutErr : AttemptOutcome Nat)) 0 none 3).1,
      x = resolve_timeout none 10) ∧
    (((fun _ => (AttemptOutcome.timeoutErr : AttemptOutcome Nat)) 3 = .timeoutErr ∧
        (execute 10 (fun _ => (AttemptOutcome.timeoutErr : AttemptOutcome Nat)) 0 none 3).2 =
          .error .timeoutErr) ∨
     ((fun _ => (AttemptOutcome.timeoutErr : AttemptOutcome Nat)) 3 = .clientErr ∧
        (execute 10 (fun _ => (AttemptOutcome.timeoutErr : AttemptOutcome Nat)) 0 none 3).2 =
          .error .clientErr)) :=
  execute_exhausts_retry_budget_on_network_failure 10
    (fun _ => AttemptOutcome.timeoutErr) none (fun _ => Or.inl rfl)

/-- C2 counterexample: on a first response with a retriable status whose
first GraphQL error lacks an `extensions` object, `execute` raises
`AttributeError`, not a Retryable-classified error (still without any
further attempt). -/
theorem execute_retriable_status_counterexample :
    resp429bad.status ∈ HTTP_CODES_RETRIABLE ∧
    resp429bad.content_type = "application/json" ∧
    (execute 10 (fun _ => AttemptOutcome.response resp429bad) 0 (some 7) 3).1.length = 1 ∧
    (execute 10 (fun _ => AttemptOutcome.response resp429bad) 0 (some 7) 3).2 =
      .error .attributeError ∧
    RaisedError.isRetryable .attributeError = false :=
  ⟨by decide, rfl, rfl, rfl, rfl⟩

/-- C2 (amended): for every HTTP status in the configured retriable set,
the first response carrying that status ends `execute` after exactly one
request attempt — none of its own retry budget is consumed — and,
whenever error-detail extraction succeeds on the payload, the raised
error is the Retryable classification. -/
theorem execute_retriable_status_no_retry {δ : Type}
    (self_timeout : Nat) (transport : Nat → AttemptOutcome δ)
    (timeout : Option Nat) (retry : Nat) (resp : Response δ)
    (h0 : transport 0 = .response resp)
    (hct : resp.content_type = "application/json")
    (hs : resp.status ∈ HTTP_CODES_RETRIABLE) :
    (execute self_timeout transport 0 timeout retry).1.length = 1 ∧
    ∀ code msg,
      extract_error_details resp.body.errors resp.contentStr = .ok (code, msg) →
      (execute self_timeout transport 0 timeout retry).2 =
        .error (.retryableHttp resp.status msg code) := by
  rw [execute_response self_timeout transport 0 timeout retry resp h0]
  refine ⟨rfl, ?_⟩
  intro code msg hE
  rw [extract_response_data_retriable resp hct hs, hE]

/-- Witness for C2 (amended) at a 503 response with one well-formed
error entry. -/
theorem execute_retriable_status_no_retry_witness :
    (execute 10 (fun _ => AttemptOutcome.response respRetryOk) 0 none 3).1.length = 1 ∧
    (execute 10 (fun _ => AttemptOutcome.response respRetryOk) 0 none 3).2 =
      .error (.retryableHttp 503 (some "slow down") (some "RATE_LIMITED")) := by
  have h := execute_retriable_status_no_retry 10
    (fun _ => AttemptOutcome.response respRetryOk) none 3 respRetryOk rfl rfl (by decide)
  exact ⟨h.1, h.2 (some "RATE_LIMITED") (some "slow down") rfl⟩

/-- C6: for every HTTP status in the configured fatal set, `execute`
raises after a single attempt; with the payload's extracted extension
code equal to the designated authentication-failure code it raises
`InvalidLoginError`, with any other extracted code it raises
`FatalHttpExceptionError`. -/
theorem execute_fatal_status_classification {δ : Type}
    (self_timeout : Nat) (transport : Nat → AttemptOutcome δ)
    (timeout : Option Nat) (retry : Nat) (resp : Response δ)
    (h0 : transport 0 = .response resp)
    (hct : resp.content_type = "application/json")
    (hs : resp.status ∈ HTTP_CODES_FATAL) :
    (execute self_timeout transport 0 timeout retry).1.length = 1 ∧
    ∀ code msg,
      extract_error_details resp.body.errors "request failed" = .ok (code, msg) →
      ((code = some API_ERR_CODE_UNAUTH →
          (execute self_timeout transport 0 timeout retry).2 =
            .error (.invalidLogin resp.status msg code)) ∧
       (code ≠ some API_ERR_CODE_UNAUTH →
          (execute self_timeout transport 0 timeout retry).2 =
            .error (.fatalHttp resp.status msg code))) := by
  rw [execute_response self_timeout transport 0 timeout retry resp h0]
  refine ⟨rfl, ?_⟩
  intro code msg hE
  rw [extract_response_data_fatal resp hct hs, hE]
  dsimp only
  constructor
  · intro hcode
    rw [if_pos hcode]
  · intro hcode
    rw [if_neg hcode]

/-- Witness for C6 at a 400 response with the authentication code and a
400 response with another code. -/
theorem execute_fatal_status_classification_witness :
    (execute 10 (fun _ => AttemptOutcome.response respFatalAuth) 0 none 3).1.length = 1 ∧
    (execute 10 (fun _ => AttemptOutcome.response respFatalAuth) 0 none 3).2 =
      .error (.invalidLogin 400 (some "invalid token") (some "UNAUTHENTICATED")) ∧
    (execute 10 (fun _ => AttemptOutcome.response respFatalOther) 0 none 3).2 =
      .error (.fatalHttp 400 (some "oops") (some "BAD_REQUEST")) := by
  have h1 := execute_fatal_status_classification 10
    (fun _ => AttemptOutcome.response respFatalAuth) none 3 respFatalAuth rfl rfl (by decide)
  have h2 := execute_fatal_status_classification 10
    (fun _ => AttemptOutcome.response respFatalOther) none 3 respFatalOther rfl rfl (by decide)
  exact ⟨h1.1, (h1.2 _ _ rfl).1 rfl, (h2.2 _ _ rfl).2 (by decide)⟩

/-- C7: a response whose declared content type is not `application/json`
makes `execute` raise `FatalHttpExceptionError` with the "Unexpected
content type" message after a single attempt, whatever the status code. -/
theorem execute_unexpected_content_type_fatal {δ : Type}
    (self_timeout : Nat) (transport : Nat → AttemptOutcome δ)
    (timeout : Option Nat) (retry : Nat) (resp : Response δ)
    (h0 : transport 0 = .response resp)
    (hct : resp.content_type ≠ "application/json") :
    (execute self_timeout transport 0 timeout retry).1.length = 1 ∧
    (execute self_timeout transport 0 timeout retry).2 =
      .error (.fatalHttp resp.status
        (some ("Unexpected content type: " ++ resp.content_type))
        (some API_ERR_CODE_UNKNOWN)) := by
  rw [execute_response self_timeout transport 0 timeout retry resp h0]
  refine ⟨rfl, ?_⟩
  unfold extract_response_data
  rw [if_pos hct]

/-- Witness for C7 at a status-200 `text/html` response. -/
theorem execute_unexpected_content_type_fatal_witness :
    (execute 10 (fun _ => AttemptOutcome.response respHtml) 0 none 3).1.length = 1 ∧
    (execute 10 (fun _ => AttemptOutcome.response respHtml) 0 none 3).2 =
      .error (.fatalHttp 200 (some "Unexpected content type: text/html")
        (some API_ERR_CODE_UNKNOWN)) := by
  have h := execute_unexpected_content_type_fatal 10
    (fun _ => AttemptOutcome.response respHtml) none 3 respHtml rfl (by decide)
  exact ⟨h.1, h.2⟩

/-- C8 counterexample: a retriable-status payload whose first error lacks
an `extensions` object makes extraction fail with `AttributeError`, not
with the Retryable classification. -/
theorem retriable_classification_counterexample :
    resp429bad.status ∈ HTTP_CODES_RETRIABLE ∧
    resp429bad.content_type = "application/json" ∧
    extract_response_data resp429bad = .error .attributeError ∧
    RaisedError.isRetryable .attributeError = false :=
  ⟨by decide, rfl, rfl, rfl⟩

/-- C8 (amended): for a retriable-status response, classification yields
the Retryable error with the first error's code and message when the
first error carries an `extensions` object, and the generic unknown code
with the default message when the errors list is empty; a first error
lacking an `extensions` object makes extraction fail with
`AttributeError` instead of the classified error. -/
theorem retriable_classification_total_when_wellformed {δ : Type}
    (resp : Response δ)
    (hct : resp.content_type = "application/json")
    (hs : resp.status ∈ HTTP_CODES_RETRIABLE) :
    (resp.body.errors = [] →
      extract_response_data resp =
        .error (.retryableHttp resp.status (some resp.contentStr)
          (some API_ERR_CODE_UNKNOWN))) ∧
    (∀ e rest, resp.body.errors = e :: rest →
      (∀ ext, e.extensions = some ext →
        extract_response_data resp = .error (.retryableHttp resp.status e.message ext)) ∧
      (e.extensions = none →
        extract_response_data resp = .error .attributeError)) := by
  rw [extract_response_data_retriable resp hct hs]
  refine ⟨?_, ?_⟩
  · intro hE
    simp [extract_error_details, hE]
  · intro e rest hE
    constructor
    · intro ext hext
      simp [extract_error_details, hE, hext]
    · intro hext
      simp [extract_error_details, hE, hext]

/-- Witness for C8 (amended) at an empty-errors payload, a well-formed
payload and a payload whose first error lacks `extensions`. -/
theorem retriable_classification_total_when_wellformed_witness :
    extract_response_data respRetryEmpty =
      .error (.retryableHttp 429 (some "fallback") (some API_ERR_CODE_UNKNOWN)) ∧
    extract_response_data respRetryOk =
      .error (.retryableHttp 503 (some "slow down") (some "RATE_LIMITED")) ∧
    extract_response_data resp429bad = .error .attributeError := by
  have h1 := retriable_classification_total_when_wellformed respRetryEmpty rfl (by decide)
  have h2 := retriable_classification_total_when_wellformed respRetryOk rfl (by decide)
  have h3 := retriable_classification_total_when_wellformed resp429bad rfl (by decide)
  exact ⟨h1.1 rfl, (h2.2 _ _ rfl).1 _ rfl, (h3.2 _ _ rfl).2 rfl⟩

/-- C3: on a transport-level failure during iteration the stream clears
the manager's connected flag and the transport's connected event; when a
reconnect loop is in progress and the failure is the connection-closed
condition (`TransportClosed`) it blocks on the connected event and raises
`WebsocketReconnectedError`, in every other case it raises
`WebsocketTransportError`; a failure never lets the stream end as if the
iteration had completed. -/
theorem subscribe_failure_reconnect_or_transport_error (st : WSState)
    (err : SubscriptionFailure) :
    ((handle_subscription_failure st err).2.2 = .websocketReconnectedError ∨
     (handle_subscription_failure st err).2.2 = .websocketTransportError) ∧
    (st.reconnecting_task_in_progress = true → err = .transportClosed →
      (handle_subscription_failure st err).2.1 = true ∧
      (handle_subscription_failure st err).2.2 = .websocketReconnectedError ∧
      (handle_subscription_failure st err).1.tibber_connected = true ∧
      (handle_subscription_failure st err).1.connected = true) ∧
    (st.reconnecting_task_in_progress = false ∨ err ≠ .transportClosed →
      (handle_subscription_failure st err).1 =
        { st with connected := false, tibber_connected := false } ∧
      (handle_subscription_failure st err).2.1 = false ∧
      (handle_subscription_failure st err).2.2 = .websocketTransportError) ∧
    (∀ msgs : List Nat, (subscribe st msgs (some err)).outcome ≠ .streamEnded) := by
  refine ⟨?_, ?_, ?_, ?_⟩
  · by_cases h : st.reconnecting_task_in_progress = true ∧ err = .transportClosed
    · left
      simp [handle_subscription_failure, h.1, h.2]
    · right
      rw [handle_subscription_failure, if_neg (by simpa using h)]
  · intro hr he
    simp [handle_subscription_failure, hr, he]
  · intro h
    have hcond : ¬ (st.reconnecting_task_in_progress = true ∧ err = .transportClosed) := by
      rcases h with h | h
      · intro hc
        rw [h] at hc
        exact Bool.false_ne_true hc.1
      · intro hc
        exact h hc.2
    rw [handle_subscription_failure, if_neg (by simpa using hcond)]
    exact ⟨rfl, rfl, rfl⟩
  · intro msgs
    by_cases hr : st.reconnecting_task_in_progress
    · rw [subscribe, if_neg (by simpa using hr)]
      by_cases h : st.reconnecting_task_in_progress = true ∧ err = .transportClosed
      · simp [handle_subscription_failure, h.1, h.2]
      · rw [handle_subscription_failure, if_neg (by simpa using h)]
        simp
    · rw [subscribe, if_pos (by simpa using hr)]
      simp

/-- Witness for C3 at a ready client hit by `TransportClosed` and by a
plain `ConnectionClosed`. -/
theorem subscribe_failure_reconnect_or_transport_error_witness :
    ((handle_subscription_failure wsReadyState .transportClosed).2.1 = true ∧
     (handle_subscription_failure wsReadyState .transportClosed).2.2 =
       .websocketReconnectedError ∧
     (handle_subscription_failure wsReadyState .transportClosed).1.tibber_connected = true ∧
     (handle_subscription_failure wsReadyState .transportClosed).1.connected = true) ∧
    ((handle_subscription_failure wsReadyState .connectionClosed).1 =
       { wsReadyState with connected := false, tibber_connected := false } ∧
     (handle_subscription_failure wsReadyState .connectionClosed).2.1 = false ∧
     (handle_subscription_failure wsReadyState .connectionClosed).2.2 =
       .websocketTransportError) ∧
    (subscribe wsReadyState [0] (some .transportClosed)).outcome ≠ .streamEnded := by
  have h1 := subscribe_failure_reconnect_or_transport_error wsReadyState .transportClosed
  have h2 := subscribe_failure_reconnect_or_transport_error wsReadyState .connectionClosed
  exact ⟨h1.2.1 rfl rfl, h2.2.2.1 (Or.inr (by decide)), h1.2.2.2 [0]⟩

/-- C4: when the handshake hits the configured timeout, `connect` returns
without raising, leaves the client not connected, and marks the reconnect
loop as in progress; a second `connect` call is then an immediate no-op
(same state, no handshake attempt, no error). -/
theorem connect_timeout_returns_without_raising (st : WSState)
    (hurl : st.transport_url ≠ DEFAULT_SUBSCRIPTION_ENDPOINT)
    (hc : st.connected = false)
    (hr : st.reconnecting_task_in_progress = false) :
    (connect st .timeout).error = none ∧
    (connect st .timeout).handshake_attempts = 1 ∧
    (connect st .timeout).state.connected = false ∧
    (connect st .timeout).state.reconnecting_task_in_progress = true ∧
    ∀ hs2, connect (connect st .timeout).state hs2 =
      ⟨(connect st .timeout).state, 0, none⟩ := by
  have h1 : connect st .timeout =
      ⟨{ st with reconnecting_task_in_progress := true }, 1, none⟩ := by
    rw [connect.eq_def, if_neg hurl, if_neg (by simp [hc, hr])]
  have h2 : ∀ hs2, connect { st with reconnecting_task_in_progress := true } hs2 =
      ⟨{ st with reconnecting_task_in_progress := true }, 0, none⟩ := by
    intro hs2
    simp [connect.eq_def, hurl]
  refine ⟨by rw [h1], by rw [h1], by rw [h1]; exact hc, by rw [h1], ?_⟩
  intro hs2
  rw [h1]
  exact h2 hs2

/-- Witness for C4 at an idle client whose endpoint is set. -/
theorem connect_timeout_returns_without_raising_witness :
    (connect wsIdleState .timeout).error = none ∧
    (connect wsIdleState .timeout).handshake_attempts = 1 ∧
    (connect wsIdleState .timeout).state.connected = false ∧
    (connect wsIdleState .timeout).state.reconnecting_task_in_progress = true ∧
    ∀ hs2, connect (connect wsIdleState .timeout).state hs2 =
      ⟨(connect wsIdleState .timeout).state, 0, none⟩ :=
  connect_timeout_returns_without_raising wsIdleState (by decide) rfl rfl

/-- C5: configuration errors fail immediately with no I/O — `connect`
raises `SubscriptionEndpointMissingError` while the transport url is the
unset sentinel (no handshake attempt, state unchanged), and `subscribe`
raises the usage `RuntimeError` whenever the reconnect loop has not been
marked in progress (nothing yielded, no wait, state unchanged). -/
theorem configuration_errors_fail_immediately (st : WSState)
    (hs : HandshakeOutcome) (msgs : List Nat)
    (failure : Option SubscriptionFailure) :
    (st.transport_url = DEFAULT_SUBSCRIPTION_ENDPOINT →
      connect st hs = ⟨st, 0, some .subscriptionEndpointMissing⟩) ∧
    (st.reconnecting_task_in_progress = false →
      subscribe st msgs failure = ⟨st, [], false, .usageError⟩) := by
  constructor
  · intro hurl
    rw [connect.eq_def, if_pos hurl]
  · intro hr
    rw [subscribe.eq_def, if_pos (by simp [hr])]

/-- Witness for C5 at the freshly initialized client state. -/
theorem configuration_errors_fail_immediately_witness :
    connect initialState .success =
      ⟨initialState, 0, some .subscriptionEndpointMissing⟩ ∧
    subscribe initialState ([3] : List Nat) none =
      ⟨initialState, [], false, .usageError⟩ := by
  have h := configuration_errors_fail_immediately initialState .success [3] none
  exact ⟨h.1 rfl, h.2 rfl⟩

/-- C9 counterexample: after a successful `connect`, `disconnect` clears
the reconnect-loop flag but leaves `connected` set, so the client still
reports a connection. -/
theorem disconnect_leaves_connected_flag :
    wsReadyState.connected = true ∧
    (disconnect wsReadyState).reconnecting_task_in_progress = false ∧
    (disconnect wsReadyState).connected = true :=
  ⟨rfl, rfl, rfl⟩

/-- C9 (amended): `disconnect` closes the transport, clears the
transport's connected event and the reconnect-loop flag — but not the
`connected` flag, which keeps its previous value — and a second call
leaves the state unchanged (idempotent). -/
theorem disconnect_clears_reconnect_flag_idempotent (st : WSState) :
    (disconnect st).transport_open = false ∧
    (disconnect st).tibber_connected = false ∧
    (disconnect st).reconnecting_task_in_progress = false ∧
    (disconnect st).connected = st.connected ∧
    disconnect (disconnect st) = disconnect st :=
  ⟨rfl, rfl, rfl, rfl, rfl⟩

/-- C10: with the connect lock serializing the two critical sections, two
`connect` calls start at most one handshake attempt between them, and
when the first call did start one, the second call is a no-op that
observes the first call's state (no attempt, no error). -/
theorem connect_serialized_single_handshake (st : WSState)
    (hs1 hs2 : HandshakeOutcome) :
    (connect st hs1).handshake_attempts +
      (connect (connect st hs1).state hs2).handshake_attempts ≤ 1 ∧
    ((connect st hs1).handshake_attempts = 1 →
      connect (connect st hs1).state hs2 =
        ⟨(connect st hs1).state, 0, none⟩) := by
  by_cases hurl : st.transport_url = DEFAULT_SUBSCRIPTION_ENDPOINT
  · simp [connect.eq_def, hurl]
  · by_cases hbusy : (st.connected || st.reconnecting_task_in_progress) = true
    · simp [connect.eq_def, hurl, hbusy]
    · cases hs1 <;> simp [connect.eq_def, hurl, hbusy]

/-- Witness for C10: a serialized double connect at the idle client. -/
theorem connect_serialized_single_handshake_witness :
    (connect wsIdleState .timeout).handshake_attempts +
      (connect (connect wsIdleState .timeout).state .success).handshake_attempts ≤ 1 ∧
    connect (connect wsIdleState .timeout).state .success =
      ⟨(connect wsIdleState .timeout).state, 0, none⟩ := by
  have h := connect_serialized_single_handshake wsIdleState .timeout .success
  exact ⟨h.1, h.2 rfl⟩

end Tibber
